import Mathlib

/-!
Shallow embedding of the `io_wrapper_statistics` crate (src/src/lib.rs).

Modelling conventions:
* `u64` and `usize` values are `Nat`s; the target platform is 64-bit, so both
  types have modulus `2 ^ 64`.  Rust's `+` on these types is modelled with the
  default release-profile semantics (the crate sets no `overflow-checks`
  override): the sum is reduced modulo `2 ^ 64`.
* `i64` values are `Int`s constrained to `[i64_min, i64_max]` by hypotheses.
* The wrapped I/O object is abstract: each wrapper operation takes, as an
  extra argument, the outcome the wrapped object's call returned
  (`Except ErrorKind _` standing for `std::io::Result`), and the wrapper's
  bookkeeping is computed from that outcome exactly as the source does.
  Mutation of the wrapped object itself is outside the model.
* The generic log container `C` (default-construct + extend) is modelled as
  `List IopInfoPair`; `extend` with a one-element array is `· ++ [record]`.
-/

/-- Modulus of `u64` (and of `usize` on the 64-bit target). -/
def u64Mod : Nat := 2 ^ 64

/-- Smallest `i64` value. -/
def i64_min : Int := -(2 ^ 63)

/-- Largest `i64` value (`i64::MAX`). -/
def i64_max : Int := 2 ^ 63 - 1

/-- Coarse error classification, standing for `std::io::ErrorKind`.  The
wrapper never inspects it; a few representative variants suffice. -/
inductive ErrorKind where
  | Interrupted
  | WouldBlock
  | UnexpectedEof
  | Other
  deriving DecidableEq

/-- The `SuccessFailureCounter<u64>` struct: two unsigned counts. -/
structure SuccessFailureCounter where
  success_ctr : Nat
  failure_ctr : Nat
  deriving DecidableEq

/-- The derived `Default`: both counts zero. -/
def SuccessFailureCounter.default : SuccessFailureCounter :=
  { success_ctr := 0, failure_ctr := 0 }

/-- `increment_success`: `success_ctr = success_ctr + 1` in `u64`. -/
def SuccessFailureCounter.increment_success (c : SuccessFailureCounter) :
    SuccessFailureCounter :=
  { c with success_ctr := (c.success_ctr + 1) % u64Mod }

/-- `add_successes(amount)`: `success_ctr = success_ctr + amount` in `u64`. -/
def SuccessFailureCounter.add_successes (c : SuccessFailureCounter) (amount : Nat) :
    SuccessFailureCounter :=
  { c with success_ctr := (c.success_ctr + amount) % u64Mod }

/-- `increment_failure`: `failure_ctr = failure_ctr + 1` in `u64`. -/
def SuccessFailureCounter.increment_failure (c : SuccessFailureCounter) :
    SuccessFailureCounter :=
  { c with failure_ctr := (c.failure_ctr + 1) % u64Mod }

/-- `add_failures(amount)`: `failure_ctr = failure_ctr + amount` in `u64`. -/
def SuccessFailureCounter.add_failures (c : SuccessFailureCounter) (amount : Nat) :
    SuccessFailureCounter :=
  { c with failure_ctr := (c.failure_ctr + amount) % u64Mod }

/-- `attempt_ctr()`: `success_ctr + failure_ctr` in `u64`. -/
def SuccessFailureCounter.attempt_ctr (c : SuccessFailureCounter) : Nat :=
  (c.success_ctr + c.failure_ctr) % u64Mod

/-- The four mutating operations of `SuccessFailureCounter`, as data, so that
arbitrary operation sequences can be quantified over. -/
inductive CtrOp where
  | inc_success
  | inc_failure
  | add_successes (amount : Nat)
  | add_failures (amount : Nat)
  deriving DecidableEq

/-- Apply one counter operation. -/
def applyCtrOp (c : SuccessFailureCounter) : CtrOp → SuccessFailureCounter
  | CtrOp.inc_success => c.increment_success
  | CtrOp.inc_failure => c.increment_failure
  | CtrOp.add_successes amount => c.add_successes amount
  | CtrOp.add_failures amount => c.add_failures amount

/-- Apply a sequence of counter operations, first element first. -/
def applyCtrOps (c : SuccessFailureCounter) (ops : List CtrOp) :
    SuccessFailureCounter :=
  ops.foldl applyCtrOp c

/-- The `SignedAbsResult<u64>` enum: sign with unsigned magnitude. -/
inductive SignedAbsResult where
  | Negative (magnitude : Nat)
  | Zero
  | Positive (magnitude : Nat)
  deriving DecidableEq

/-- The `abs_sign_tuple::<i64, u64>` helper, translated branch for branch from
the source.  `signum` is `Int.sign`; `U::from(x).unwrap()` on a nonnegative
`i64` is `Int.toNat`; the `S::min_value()` branch builds the magnitude as
`U::from(S::max_value()).unwrap() + U::one()`.  The final `else` is the
source's `unreachable!()`: `Int.sign` only takes values in `{-1, 0, 1}`, so
that branch is dead code (given an arbitrary value here). -/
def abs_sign_tuple (signed_number : Int) : SignedAbsResult :=
  if signed_number.sign = 1 then
    SignedAbsResult.Positive signed_number.toNat
  else if signed_number.sign = 0 then
    SignedAbsResult.Zero
  else if signed_number.sign = -1 then
    if signed_number = i64_min then
      SignedAbsResult.Negative (i64_max.toNat + 1)
    else
      SignedAbsResult.Negative (-signed_number).toNat
  else
    SignedAbsResult.Zero

/-- The `SeekFrom` specification passed to `seek`. -/
inductive SeekFrom where
  | Start (offset : Nat)
  | End (offset : Int)
  | Current (offset : Int)
  deriving DecidableEq

/-- The `IopActions` enum: types of I/O operations. -/
inductive IopActions where
  | Read (size : Nat)
  | Seek (pos : SeekFrom)
  | Write (size : Nat)
  | Flush
  deriving DecidableEq

deriving instance DecidableEq for Except

/-- The `IopResults` enum: results of I/O operations (only the `ErrorKind` of
an error is retained). -/
inductive IopResults where
  | Read (res : Except ErrorKind Nat)
  | Seek (res : Except ErrorKind Nat)
  | Write (res : Except ErrorKind Nat)
  | Flush (res : Except ErrorKind Unit)
  deriving DecidableEq

/-- `IopInfoPair = (IopActions, IopResults)`. -/
abbrev IopInfoPair : Type := IopActions × IopResults

/-- The `IOStatWrapper<T, C>` struct with `C` instantiated to a list.  The
field `inner_obj` is the source's `inner_io`. -/
structure IOStatWrapper (T : Type) where
  inner_obj : T
  iop_log : List IopInfoPair
  read_call_counter : SuccessFailureCounter
  read_byte_counter : Nat
  seek_call_counter : SuccessFailureCounter
  seek_pos : Nat
  write_call_counter : SuccessFailureCounter
  write_flush_counter : SuccessFailureCounter
  write_byte_counter : Nat

/-- `IOStatWrapper::new(obj, start_seek_pos)`. -/
def IOStatWrapper.new {T : Type} (obj : T) (start_seek_pos : Nat) :
    IOStatWrapper T :=
  { inner_obj := obj
    iop_log := []
    read_call_counter := SuccessFailureCounter.default
    read_byte_counter := 0
    seek_call_counter := SuccessFailureCounter.default
    seek_pos := start_seek_pos
    write_call_counter := SuccessFailureCounter.default
    write_flush_counter := SuccessFailureCounter.default
    write_byte_counter := 0 }

/-- `IOStatWrapper::into_inner(self)`. -/
def IOStatWrapper.into_inner {T : Type} (w : IOStatWrapper T) : T :=
  w.inner_obj

/-- `Read::read` for the wrapper.  `buf_len` is `buf.len()`; `res` is what
`self.inner_io.read(buf)` returned.  On `Ok(n)`: increment the read success
counter, `read_byte_counter += n`, `seek_pos += n` (the `u64::try_from`
always succeeds on the 64-bit target; the additions are release-profile `+`,
i.e. modulo `2 ^ 64`), and append one `(Read(buf.len()), Read(Ok(n)))`
record.  On `Err(e)`: increment the read failure counter and append one
record with `e.kind()`.  The original result is returned either way. -/
def IOStatWrapper.read {T : Type} (w : IOStatWrapper T) (buf_len : Nat)
    (res : Except ErrorKind Nat) : IOStatWrapper T × Except ErrorKind Nat :=
  match res with
  | Except.ok n =>
    ({ w with
        read_call_counter := w.read_call_counter.increment_success
        read_byte_counter := (w.read_byte_counter + n) % u64Mod
        seek_pos := (w.seek_pos + n) % u64Mod
        iop_log := w.iop_log ++
          [(IopActions.Read buf_len, IopResults.Read (Except.ok n))] },
      res)
  | Except.error e =>
    ({ w with
        read_call_counter := w.read_call_counter.increment_failure
        iop_log := w.iop_log ++
          [(IopActions.Read buf_len, IopResults.Read (Except.error e))] },
      res)

/-- A sequence of `read` calls: each element of `calls` is the pair of the
requested buffer length and the outcome the wrapped object returned for that
call. -/
def IOStatWrapper.readMany {T : Type} (w : IOStatWrapper T)
    (calls : List (Nat × Except ErrorKind Nat)) : IOStatWrapper T :=
  calls.foldl (fun acc c => (IOStatWrapper.read acc c.1 c.2).1) w

/-- `Seek::seek` for the wrapper.  `pos` is the requested `SeekFrom`; `res` is
what `self.inner_io.seek(pos)` returned.  On `Ok(n)`: increment the seek
success counter and replace `seek_pos` with `n` (the `debug_assert_eq!`
cross-check compiles to nothing in release and is modelled separately by
`seek_current_check`), then append one record.  On `Err(e)`: increment the
seek failure counter and append one record with `e.kind()`. -/
def IOStatWrapper.seek {T : Type} (w : IOStatWrapper T) (pos : SeekFrom)
    (res : Except ErrorKind Nat) : IOStatWrapper T × Except ErrorKind Nat :=
  match res with
  | Except.ok n =>
    ({ w with
        seek_call_counter := w.seek_call_counter.increment_success
        seek_pos := n
        iop_log := w.iop_log ++
          [(IopActions.Seek pos, IopResults.Seek (Except.ok n))] },
      res)
  | Except.error e =>
    ({ w with
        seek_call_counter := w.seek_call_counter.increment_failure
        iop_log := w.iop_log ++
          [(IopActions.Seek pos, IopResults.Seek (Except.error e))] },
      res)

/-- The debug-build consistency check run inside `seek` when the request was
`SeekFrom::Current(offset)` and the wrapped object returned `Ok(n)`:
`old_pos` is the shadow cursor before the call.  `some b` means the
`debug_assert_eq!` comparison evaluated to `b`; `none` means the expected
position expression itself aborts (debug `u64` overflow in `old_pos + a` or
underflow in `old_pos - a`). -/
def seek_current_check (old_pos : Nat) (offset : Int) (n : Nat) : Option Bool :=
  match abs_sign_tuple offset with
  | SignedAbsResult.Zero => some (old_pos == n)
  | SignedAbsResult.Positive a =>
      if old_pos + a < u64Mod then some (old_pos + a == n) else none
  | SignedAbsResult.Negative a =>
      if a ≤ old_pos then some (old_pos - a == n) else none

/-- `Write::write` for the wrapper, mirror of `read` on the write-side
counters. -/
def IOStatWrapper.write {T : Type} (w : IOStatWrapper T) (buf_len : Nat)
    (res : Except ErrorKind Nat) : IOStatWrapper T × Except ErrorKind Nat :=
  match res with
  | Except.ok n =>
    ({ w with
        write_call_counter := w.write_call_counter.increment_success
        write_byte_counter := (w.write_byte_counter + n) % u64Mod
        seek_pos := (w.seek_pos + n) % u64Mod
        iop_log := w.iop_log ++
          [(IopActions.Write buf_len, IopResults.Write (Except.ok n))] },
      res)
  | Except.error e =>
    ({ w with
        write_call_counter := w.write_call_counter.increment_failure
        iop_log := w.iop_log ++
          [(IopActions.Write buf_len, IopResults.Write (Except.error e))] },
      res)

/-- `Write::flush` for the wrapper. -/
def IOStatWrapper.flush {T : Type} (w : IOStatWrapper T)
    (res : Except ErrorKind Unit) : IOStatWrapper T × Except ErrorKind Unit :=
  match res with
  | Except.ok _ =>
    ({ w with
        write_flush_counter := w.write_flush_counter.increment_success
        iop_log := w.iop_log ++ [(IopActions.Flush, IopResults.Flush (Except.ok ()))] },
      res)
  | Except.error e =>
    ({ w with
        write_flush_counter := w.write_flush_counter.increment_failure
        iop_log := w.iop_log ++
          [(IopActions.Flush, IopResults.Flush (Except.error e))] },
      res)

/-- `Read::read_to_end`: direct delegation, no bookkeeping. -/
def IOStatWrapper.read_to_end {T : Type} (w : IOStatWrapper T)
    (res : Except ErrorKind Nat) : IOStatWrapper T × Except ErrorKind Nat :=
  (w, res)

/-- `Read::read_to_string`: direct delegation, no bookkeeping. -/
def IOStatWrapper.read_to_string {T : Type} (w : IOStatWrapper T)
    (res : Except ErrorKind Nat) : IOStatWrapper T × Except ErrorKind Nat :=
  (w, res)

/-- `Read::read_exact`: direct delegation, no bookkeeping. -/
def IOStatWrapper.read_exact {T : Type} (w : IOStatWrapper T)
    (res : Except ErrorKind Unit) : IOStatWrapper T × Except ErrorKind Unit :=
  (w, res)

/-- `Read::read_vectored`: direct delegation, no bookkeeping. -/
def IOStatWrapper.read_vectored {T : Type} (w : IOStatWrapper T)
    (res : Except ErrorKind Nat) : IOStatWrapper T × Except ErrorKind Nat :=
  (w, res)

/-- `Seek::rewind`: direct delegation, no bookkeeping. -/
def IOStatWrapper.rewind {T : Type} (w : IOStatWrapper T)
    (res : Except ErrorKind Unit) : IOStatWrapper T × Except ErrorKind Unit :=
  (w, res)

/-- `Seek::stream_position`: direct delegation, no bookkeeping. -/
def IOStatWrapper.stream_position {T : Type} (w : IOStatWrapper T)
    (res : Except ErrorKind Nat) : IOStatWrapper T × Except ErrorKind Nat :=
  (w, res)

/-- `Write::write_all`: direct delegation, no bookkeeping. -/
def IOStatWrapper.write_all {T : Type} (w : IOStatWrapper T)
    (res : Except ErrorKind Unit) : IOStatWrapper T × Except ErrorKind Unit :=
  (w, res)

/-- `Write::write_fmt`: direct delegation, no bookkeeping. -/
def IOStatWrapper.write_fmt {T : Type} (w : IOStatWrapper T)
    (res : Except ErrorKind Unit) : IOStatWrapper T × Except ErrorKind Unit :=
  (w, res)

/-- `Write::write_vectored`: direct delegation, no bookkeeping. -/
def IOStatWrapper.write_vectored {T : Type} (w : IOStatWrapper T)
    (res : Except ErrorKind Nat) : IOStatWrapper T × Except ErrorKind Nat :=
  (w, res)

/-! Helper lemmas about `abs_sign_tuple`. -/

theorem abs_sign_tuple_of_pos (d : Int) (hd : 0 < d) :
    abs_sign_tuple d = SignedAbsResult.Positive d.toNat := by
  unfold abs_sign_tuple
  rw [if_pos (Int.sign_eq_one_iff_pos.mpr hd)]

theorem abs_sign_tuple_zero_eq : abs_sign_tuple 0 = SignedAbsResult.Zero := by
  decide

theorem abs_sign_tuple_of_neg (d : Int) (hlo : i64_min ≤ d) (hd : d < 0) :
    abs_sign_tuple d = SignedAbsResult.Negative (-d).toNat := by
  have hs : d.sign = -1 := Int.sign_eq_neg_one_iff_neg.mpr hd
  unfold abs_sign_tuple
  rw [if_neg (by rw [hs]; decide), if_neg (by rw [hs]; decide), if_pos hs]
  by_cases hmin : d = i64_min
  · subst hmin
    rw [if_pos rfl]
    decide
  · rw [if_neg hmin]

/-- C4: for every 64-bit signed integer `d`, `abs_sign_tuple d` is a
three-way classification whose unsigned magnitude is exactly `|d|` as an
unbounded integer: `Positive d` when `d > 0`, `Zero` when `d = 0`, and
`Negative (-d)` when `d < 0`, including the boundary `d = i64::MIN` (where
the magnitude `2 ^ 63` is built as one more than `i64::MAX`). -/
theorem abs_sign_tuple_classification (d : Int)
    (hlo : i64_min ≤ d) (hhi : d ≤ i64_max) :
    (0 < d → abs_sign_tuple d = SignedAbsResult.Positive d.toNat
      ∧ (d.toNat : Int) = |d|)
    ∧ (d = 0 → abs_sign_tuple d = SignedAbsResult.Zero)
    ∧ (d < 0 → abs_sign_tuple d = SignedAbsResult.Negative (-d).toNat
      ∧ ((-d).toNat : Int) = |d|) := by
  refine ⟨fun hd => ⟨abs_sign_tuple_of_pos d hd, ?_⟩,
    fun hd => by rw [hd]; exact abs_sign_tuple_zero_eq,
    fun hd => ⟨abs_sign_tuple_of_neg d hlo hd, ?_⟩⟩
  · rw [abs_of_pos hd]
    omega
  · rw [abs_of_neg hd]
    omega

/-- Witness for C4 at the boundary input `d = i64::MIN = -(2 ^ 63)`: the
magnitude comes out as exactly `2 ^ 63`. -/
theorem abs_sign_tuple_classification_witness :
    abs_sign_tuple (-(2 ^ 63)) = SignedAbsResult.Negative (2 ^ 63) := by
  have h :=
    (abs_sign_tuple_classification (-(2 ^ 63)) (by decide) (by decide)).2.2
      (by decide)
  exact h.1.trans (by decide)

/-- C5: for a relative-from-current seek by signed `i64` offset `d`, answered
with `Ok n`, with shadow cursor `p` observed before the call and `p + d`
(unbounded semantics) representable as `u64`, the consistency check computes
the expected position `p + d` without aborting, and its assertion passes iff
`n = p + d` — including `d = i64::MIN`. -/
theorem seek_consistency_check_exact (p : Nat) (d : Int) (n : Nat)
    (hp : p < u64Mod) (hlo : i64_min ≤ d) (hhi : d ≤ i64_max)
    (hnn : 0 ≤ (p : Int) + d) (hub : (p : Int) + d < ((u64Mod : Nat) : Int)) :
    seek_current_check p d n = some (((p : Int) + d).toNat == n)
    ∧ (seek_current_check p d n = some true ↔ (n : Int) = (p : Int) + d) := by
  have hM : u64Mod = 2 ^ 64 := rfl
  rw [hM] at hp hub
  have key : seek_current_check p d n = some (((p : Int) + d).toNat == n) := by
    rcases lt_trichotomy d 0 with hneg | hzero | hpos
    · have ht : (-d).toNat ≤ p := by omega
      have hsub : p - (-d).toNat = ((p : Int) + d).toNat := by omega
      simp only [seek_current_check, abs_sign_tuple_of_neg d hlo hneg, hsub]
      rw [if_pos ht]
    · subst hzero
      have hcast : ((p : Int) + 0).toNat = p := by omega
      simp only [seek_current_check, abs_sign_tuple_zero_eq, hcast]
    · have ht : p + d.toNat < u64Mod := by rw [hM]; omega
      have hadd : p + d.toNat = ((p : Int) + d).toNat := by omega
      simp only [seek_current_check, abs_sign_tuple_of_pos d hpos, hadd]
      rw [if_pos (hadd ▸ ht)]
  refine ⟨key, ?_⟩
  rw [key]
  simp only [Option.some.injEq, beq_iff_eq]
  omega

/-- Witness for C5 at `p = 2 ^ 63`, `d = i64::MIN = -(2 ^ 63)`, `n = 0`: the
check passes since `p + d = 0 = n`. -/
theorem seek_consistency_check_exact_witness :
    seek_current_check (2 ^ 63) (-(2 ^ 63)) 0 = some true := by
  have h := seek_consistency_check_exact (2 ^ 63) (-(2 ^ 63)) 0
    (by decide) (by decide) (by decide) (by decide) (by decide)
  exact h.2.mpr (by decide)

/-! Helper lemma: accounting over a sequence of successful reads. -/

theorem readMany_ok_accounting {T : Type} (ops : List (Nat × Nat))
    (w : IOStatWrapper T)
    (hb : w.read_byte_counter < u64Mod) (hs : w.seek_pos < u64Mod) :
    (w.readMany (ops.map fun q => (q.1, Except.ok q.2))).read_byte_counter
      = (w.read_byte_counter + (ops.map Prod.snd).sum) % u64Mod
    ∧ (w.readMany (ops.map fun q => (q.1, Except.ok q.2))).seek_pos
      = (w.seek_pos + (ops.map Prod.snd).sum) % u64Mod := by
  have hM : u64Mod = 2 ^ 64 := rfl
  induction ops generalizing w with
  | nil =>
    simp only [List.map_nil, IOStatWrapper.readMany, List.foldl_nil,
      List.sum_nil]
    simp only [u64Mod] at hb hs ⊢
    omega
  | cons q rest ih =>
    have hstep :
        w.readMany ((q :: rest).map fun r => (r.1, Except.ok r.2))
          = ((w.read q.1 (Except.ok q.2)).1).readMany
              (rest.map fun r => (r.1, Except.ok r.2)) := by
      simp [IOStatWrapper.readMany]
    have hb1 : (w.read q.1 (Except.ok q.2)).1.read_byte_counter < u64Mod := by
      show (w.read_byte_counter + q.2) % u64Mod < u64Mod
      exact Nat.mod_lt _ (by decide)
    have hs1 : (w.read q.1 (Except.ok q.2)).1.seek_pos < u64Mod := by
      show (w.seek_pos + q.2) % u64Mod < u64Mod
      exact Nat.mod_lt _ (by decide)
    obtain ⟨ihb, ihs⟩ := ih ((w.read q.1 (Except.ok q.2)).1) hb1 hs1
    rw [hstep]
    constructor
    · rw [ihb]
      show ((w.read_byte_counter + q.2) % u64Mod + (rest.map Prod.snd).sum)
          % u64Mod = _
      simp only [List.map_cons, List.sum_cons, u64Mod]
      omega
    · rw [ihs]
      show ((w.seek_pos + q.2) % u64Mod + (rest.map Prod.snd).sum) % u64Mod = _
      simp only [List.map_cons, List.sum_cons, u64Mod]
      omega

/-- C1: a successful primitive `read` returning `Ok n` increments the read
success counter by one, adds `n` to the read-byte total, advances the shadow
cursor by `n`, and appends exactly one `(Read(buf.len()), Read(Ok(n)))`
record; a failed `read` increments the read failure counter by one, appends
one record with the error classification, and leaves the shadow cursor
unchanged.  Consequently a sequence of successful reads of total length `L`
grows the read-byte total and the shadow cursor by `L` (all `u64`/`usize`
arithmetic is modulo `2 ^ 64`). -/
theorem read_primitive_accounting {T : Type} (w : IOStatWrapper T)
    (len n : Nat) (e : ErrorKind) (ops : List (Nat × Nat))
    (hb : w.read_byte_counter < u64Mod) (hs : w.seek_pos < u64Mod) :
    ((w.read len (Except.ok n)).1.read_call_counter.success_ctr
        = (w.read_call_counter.success_ctr + 1) % u64Mod
      ∧ (w.read len (Except.ok n)).1.read_byte_counter
        = (w.read_byte_counter + n) % u64Mod
      ∧ (w.read len (Except.ok n)).1.seek_pos = (w.seek_pos + n) % u64Mod
      ∧ (w.read len (Except.ok n)).1.iop_log
        = w.iop_log ++ [(IopActions.Read len, IopResults.Read (Except.ok n))])
    ∧ ((w.read len (Except.error e)).1.read_call_counter.failure_ctr
        = (w.read_call_counter.failure_ctr + 1) % u64Mod
      ∧ (w.read len (Except.error e)).1.seek_pos = w.seek_pos
      ∧ (w.read len (Except.error e)).1.iop_log
        = w.iop_log
          ++ [(IopActions.Read len, IopResults.Read (Except.error e))])
    ∧ ((w.readMany (ops.map fun q => (q.1, Except.ok q.2))).read_byte_counter
        = (w.read_byte_counter + (ops.map Prod.snd).sum) % u64Mod
      ∧ (w.readMany (ops.map fun q => (q.1, Except.ok q.2))).seek_pos
        = (w.seek_pos + (ops.map Prod.snd).sum) % u64Mod) :=
  ⟨⟨rfl, rfl, rfl, rfl⟩, ⟨rfl, rfl, rfl⟩, readMany_ok_accounting ops w hb hs⟩

/-- Witness for C1: starting from a fresh wrapper at position `0`, two
successful reads of `2` and `3` bytes leave a read-byte total of `5`. -/
theorem read_primitive_accounting_witness :
    ((IOStatWrapper.new () 0).readMany
        ([((2 : Nat), (2 : Nat)), (3, 3)].map fun q => (q.1, Except.ok q.2))
      ).read_byte_counter = 5 := by
  have h := read_primitive_accounting (IOStatWrapper.new () 0) 3 3
    ErrorKind.Other [(2, 2), (3, 3)] (by decide) (by decide)
  exact h.2.2.1.trans (by decide)

/-- C2: a successful `seek` returning `Ok n` replaces the shadow cursor with
exactly `n`, increments the seek success counter by one, and appends one
record, whatever `SeekFrom` specification was requested; a failed `seek`
increments the seek failure counter by one, appends one record with the
error classification, and leaves the shadow cursor unchanged. -/
theorem seek_primitive_accounting {T : Type} (w : IOStatWrapper T)
    (pos : SeekFrom) (n : Nat) (e : ErrorKind) :
    ((w.seek pos (Except.ok n)).1.seek_pos = n
      ∧ (w.seek pos (Except.ok n)).1.seek_call_counter.success_ctr
        = (w.seek_call_counter.success_ctr + 1) % u64Mod
      ∧ (w.seek pos (Except.ok n)).1.iop_log
        = w.iop_log ++ [(IopActions.Seek pos, IopResults.Seek (Except.ok n))])
    ∧ ((w.seek pos (Except.error e)).1.seek_call_counter.failure_ctr
        = (w.seek_call_counter.failure_ctr + 1) % u64Mod
      ∧ (w.seek pos (Except.error e)).1.seek_pos = w.seek_pos
      ∧ (w.seek pos (Except.error e)).1.iop_log
        = w.iop_log
          ++ [(IopActions.Seek pos, IopResults.Seek (Except.error e))]) :=
  ⟨⟨rfl, rfl, rfl⟩, ⟨rfl, rfl, rfl⟩⟩

/-- C3: a successful primitive `write` returning `Ok n` increments the write
success counter by one, adds `n` to the write-byte total, advances the
shadow cursor by `n`, and appends exactly one
`(Write(buf.len()), Write(Ok(n)))` record; a failed `write` increments the
write failure counter by one, appends one record with the error
classification, and leaves the shadow cursor unchanged. -/
theorem write_primitive_accounting {T : Type} (w : IOStatWrapper T)
    (len n : Nat) (e : ErrorKind) :
    ((w.write len (Except.ok n)).1.write_call_counter.success_ctr
        = (w.write_call_counter.success_ctr + 1) % u64Mod
      ∧ (w.write len (Except.ok n)).1.write_byte_counter
        = (w.write_byte_counter + n) % u64Mod
      ∧ (w.write len (Except.ok n)).1.seek_pos = (w.seek_pos + n) % u64Mod
      ∧ (w.write len (Except.ok n)).1.iop_log
        = w.iop_log
          ++ [(IopActions.Write len, IopResults.Write (Except.ok n))])
    ∧ ((w.write len (Except.error e)).1.write_call_counter.failure_ctr
        = (w.write_call_counter.failure_ctr + 1) % u64Mod
      ∧ (w.write len (Except.error e)).1.seek_pos = w.seek_pos
      ∧ (w.write len (Except.error e)).1.iop_log
        = w.iop_log
          ++ [(IopActions.Write len, IopResults.Write (Except.error e))]) :=
  ⟨⟨rfl, rfl, rfl, rfl⟩, ⟨rfl, rfl, rfl⟩⟩

/-- C6: every primitive operation returns to the caller exactly the outcome
the wrapped object produced, for successes and errors alike. -/
theorem outcomes_returned_verbatim {T : Type} (w : IOStatWrapper T)
    (len : Nat) (pos : SeekFrom) (r1 r2 r3 : Except ErrorKind Nat)
    (r4 : Except ErrorKind Unit) :
    (w.read len r1).2 = r1 ∧ (w.write len r2).2 = r2
    ∧ (w.seek pos r3).2 = r3 ∧ (w.flush r4).2 = r4 := by
  refine ⟨?_, ?_, ?_, ?_⟩
  · cases r1 <;> rfl
  · cases r2 <;> rfl
  · cases r3 <;> rfl
  · cases r4 <;> rfl

/-! Helper lemma: counter fields stay inside the `u64` value domain. -/

theorem applyCtrOps_bounds (ops : List CtrOp) (c0 : SuccessFailureCounter)
    (hs : c0.success_ctr < u64Mod) (hf : c0.failure_ctr < u64Mod) :
    (applyCtrOps c0 ops).success_ctr < u64Mod
    ∧ (applyCtrOps c0 ops).failure_ctr < u64Mod := by
  induction ops generalizing c0 with
  | nil => exact ⟨hs, hf⟩
  | cons op rest ih =>
    have hM : 0 < u64Mod := by decide
    show (applyCtrOps (applyCtrOp c0 op) rest).success_ctr < u64Mod ∧ _
    refine ih (applyCtrOp c0 op) ?_ ?_ <;> cases op <;>
      first
        | exact Nat.mod_lt _ hM
        | exact hs
        | exact hf

/-- C7: after any sequence of `increment_success`, `increment_failure`,
`add_successes`, and `add_failures` operations on a `SuccessFailureCounter`,
`attempt_ctr()` equals the `u64` (wrapping, modulo `2 ^ 64`) sum of
`success_ctr()` and `failure_ctr()`, and both counts remain in the `u64`
value domain — a defined, reproducible result. -/
theorem counter_attempt_invariant (c0 : SuccessFailureCounter)
    (ops : List CtrOp)
    (hs : c0.success_ctr < u64Mod) (hf : c0.failure_ctr < u64Mod) :
    (applyCtrOps c0 ops).attempt_ctr
      = ((applyCtrOps c0 ops).success_ctr
          + (applyCtrOps c0 ops).failure_ctr) % u64Mod
    ∧ (applyCtrOps c0 ops).success_ctr < u64Mod
    ∧ (applyCtrOps c0 ops).failure_ctr < u64Mod :=
  ⟨rfl, applyCtrOps_bounds ops c0 hs hf⟩

/-- Witness for C7 on a concrete operation sequence from the zero counter. -/
theorem counter_attempt_invariant_witness :
    (applyCtrOps SuccessFailureCounter.default
        [CtrOp.inc_success, CtrOp.inc_failure,
          CtrOp.add_successes 5, CtrOp.add_failures 2]).attempt_ctr
      = ((applyCtrOps SuccessFailureCounter.default
            [CtrOp.inc_success, CtrOp.inc_failure,
              CtrOp.add_successes 5, CtrOp.add_failures 2]).success_ctr
          + (applyCtrOps SuccessFailureCounter.default
              [CtrOp.inc_success, CtrOp.inc_failure,
                CtrOp.add_successes 5, CtrOp.add_failures 2]).failure_ctr)
        % u64Mod :=
  (counter_attempt_invariant SuccessFailureCounter.default
    [CtrOp.inc_success, CtrOp.inc_failure,
      CtrOp.add_successes 5, CtrOp.add_failures 2]
    (by decide) (by decide)).1

/-- Counterexample to C8: with the shadow cursor at `u64::MAX`, a successful
read of one byte does not abort in the default release profile: the call
still returns `Ok 1` to the caller and the stored cursor is the wrapped
value `0`, not `2 ^ 64`. -/
theorem cursor_overflow_wraps_cex :
    ((IOStatWrapper.new () (2 ^ 64 - 1)).read 1 (Except.ok 1)).1.seek_pos = 0
    ∧ ((IOStatWrapper.new () (2 ^ 64 - 1)).read 1 (Except.ok 1)).2
      = Except.ok 1 :=
  ⟨by decide, rfl⟩

/-- C8 as amended: on the 64-bit target the `usize`-to-`u64` conversion of a
transferred byte count never fails, and when advancing the shadow cursor
would exceed `u64::MAX` on a successful read or on a successful write, the
decorator built with the default release profile does not abort: it stores
the wrapped value `seek_pos + n - 2 ^ 64` and still returns the original
outcome (an abort on this overflow happens only when the crate is compiled
with overflow checks enabled, e.g. debug builds). -/
theorem cursor_overflow_wraps {T : Type} (w : IOStatWrapper T) (len n : Nat)
    (hp : w.seek_pos < u64Mod) (hn : n < u64Mod)
    (hov : u64Mod ≤ w.seek_pos + n) :
    ((w.read len (Except.ok n)).1.seek_pos = w.seek_pos + n - u64Mod
      ∧ (w.read len (Except.ok n)).2 = Except.ok n)
    ∧ ((w.write len (Except.ok n)).1.seek_pos = w.seek_pos + n - u64Mod
      ∧ (w.write len (Except.ok n)).2 = Except.ok n) := by
  refine ⟨⟨?_, rfl⟩, ⟨?_, rfl⟩⟩ <;>
  · show (w.seek_pos + n) % u64Mod = _
    simp only [u64Mod] at hp hn hov ⊢
    omega

/-- Witness for the amended C8: cursor `2 ^ 64 - 5`, successful read (and,
from the same starting state, successful write) of `7` bytes: the stored
cursor is the wrapped value `2` in both cases. -/
theorem cursor_overflow_wraps_witness :
    ((IOStatWrapper.new () (2 ^ 64 - 5)).read 7 (Except.ok 7)).1.seek_pos = 2
    ∧ ((IOStatWrapper.new () (2 ^ 64 - 5)).write 7 (Except.ok 7)).1.seek_pos
      = 2 := by
  have h := cursor_overflow_wraps (IOStatWrapper.new () (2 ^ 64 - 5)) 7 7
    (by decide) (by decide) (by decide)
  exact ⟨h.1.1.trans (by decide), h.2.1.trans (by decide)⟩

/-- C9: every convenience operation delegates to the wrapped object and
leaves the whole decorator state — operation log, all four counters, both
byte totals, and the shadow cursor — unchanged, returning the wrapped
object's outcome with no record logged. -/
theorem convenience_ops_leave_stats_unchanged {T : Type} (w : IOStatWrapper T)
    (r1 r2 r3 r4 r9 : Except ErrorKind Nat)
    (r5 r6 r7 r8 : Except ErrorKind Unit) :
    w.read_to_end r1 = (w, r1) ∧ w.read_to_string r2 = (w, r2)
    ∧ w.read_exact r5 = (w, r5) ∧ w.read_vectored r3 = (w, r3)
    ∧ w.rewind r6 = (w, r6) ∧ w.stream_position r4 = (w, r4)
    ∧ w.write_all r7 = (w, r7) ∧ w.write_fmt r8 = (w, r8)
    ∧ w.write_vectored r9 = (w, r9) :=
  ⟨rfl, rfl, rfl, rfl, rfl, rfl, rfl, rfl, rfl⟩

/-- C10: a freshly constructed decorator has all four success/failure
counters at zero, zero byte totals, a default-constructed (empty) log, and a
shadow cursor equal to the given starting position; `into_inner` returns the
wrapped object unchanged. -/
theorem new_initial_state_into_inner {T : Type} (obj : T) (p : Nat) :
    (IOStatWrapper.new obj p).read_call_counter.success_ctr = 0
    ∧ (IOStatWrapper.new obj p).read_call_counter.failure_ctr = 0
    ∧ (IOStatWrapper.new obj p).seek_call_counter.success_ctr = 0
    ∧ (IOStatWrapper.new obj p).seek_call_counter.failure_ctr = 0
    ∧ (IOStatWrapper.new obj p).write_call_counter.success_ctr = 0
    ∧ (IOStatWrapper.new obj p).write_call_counter.failure_ctr = 0
    ∧ (IOStatWrapper.new obj p).write_flush_counter.success_ctr = 0
    ∧ (IOStatWrapper.new obj p).write_flush_counter.failure_ctr = 0
    ∧ (IOStatWrapper.new obj p).read_byte_counter = 0
    ∧ (IOStatWrapper.new obj p).write_byte_counter = 0
    ∧ (IOStatWrapper.new obj p).iop_log = []
    ∧ (IOStatWrapper.new obj p).seek_pos = p
    ∧ (IOStatWrapper.new obj p).into_inner = obj :=
  ⟨rfl, rfl, rfl, rfl, rfl, rfl, rfl, rfl, rfl, rfl, rfl, rfl, rfl⟩
